import Mathlib

/-!
Verification of the Droplet management gateway (src/main.py) against its
natural-language specification.

The development shallowly embeds the request-handling layer of `main.py`:
JSON values are an inductive type, Python truthiness and `dict.get` are
modelled explicitly, exceptions become `Except`, and each HTTP handler is a
pure function from its configuration, a provider oracle, a logging-sink
oracle and its inputs to a structured output recording the HTTP response,
the provider calls made and the event rows logged.
-/

namespace Droplet

/-- A JSON value, as produced by `request.json()` / `r.json()` in the source.
Python maps JSON `null` to `None`; we use `JVal.null` for both. -/
inductive JVal where
  | null : JVal
  | bool : Bool → JVal
  | num : Int → JVal
  | str : String → JVal
  | arr : List JVal → JVal
  | obj : List (String × JVal) → JVal

/-- Python truthiness for JSON values: `None`, `False`, `0`, `""`, `[]`, and
empty objects are falsy, everything else truthy. -/
def truthy : JVal → Bool
  | .null => false
  | .bool b => b
  | .num n => decide (n ≠ 0)
  | .str s => decide (s ≠ "")
  | .arr xs => !xs.isEmpty
  | .obj kvs => !kvs.isEmpty

/-- Python `a or b` on JSON values. -/
def pyOr (a b : JVal) : JVal := if truthy a then a else b

/-- Python `x is None`. -/
def isNull : JVal → Bool
  | .null => true
  | _ => false

/-- Python `x == s` for a string literal `s`: true exactly on the equal
JSON string (`None == s`, `5 == s`, ... are all `False` in Python). -/
def jeqStr (v : JVal) (s : String) : Bool :=
  match v with
  | .str t => t == s
  | _ => false

/-- Truthiness of an optional environment string (`os.getenv` result):
unset (`None`) and the empty string are falsy. -/
def optTruthy : Option String → Bool
  | none => false
  | some s => decide (s ≠ "")

/-- Python `p in s`-style helpers, written on character lists so that every
proof below can be checked by kernel reduction.  `pyStarts p s` is
`s.startswith(p)`. -/
def pyStarts (p s : String) : Bool := p.toList.isPrefixOf s.toList

/-- ASCII lowering of one character, as `str.lower` does on ASCII data. -/
def pyLowerChar (c : Char) : Char :=
  if 65 ≤ c.toNat && c.toNat ≤ 90 then Char.ofNat (c.toNat + 32) else c

/-- Python `s.lower()` (ASCII range; the source only lowers header text). -/
def pyLower (s : String) : String := ⟨s.toList.map pyLowerChar⟩

/-- The whitespace characters removed by Python `str.strip()` (ASCII). -/
def wsChar (c : Char) : Bool := [' ', '\t', '\n', '\r', '\x0b', '\x0c'].contains c

/-- Python `s.strip()`: surrounding whitespace removed. -/
def pyStrip (s : String) : String :=
  ⟨((s.toList.dropWhile wsChar).reverse.dropWhile wsChar).reverse⟩

/-- Python `s.replace(pat, rep)` on character lists: replace every
non-overlapping occurrence of `pat`, scanning left to right.  The `fuel`
argument makes the recursion structural; it is initialised to the length of
the scanned list, which the scan never exceeds. -/
def replaceFuel (pat rep : List Char) : Nat → List Char → List Char
  | _, [] => []
  | 0, l => l
  | fuel + 1, c :: cs =>
    if pat.isPrefixOf (c :: cs) && decide (pat ≠ []) then
      rep ++ replaceFuel pat rep fuel (List.drop (pat.length - 1) cs)
    else
      c :: replaceFuel pat rep fuel cs

/-- Python `s.replace(pat, rep)`: every non-overlapping occurrence of `pat`
in `s` is replaced by `rep`, left to right. -/
def py_replace (s pat rep : String) : String :=
  ⟨replaceFuel pat.toList rep.toList s.toList.length s.toList⟩

/-- Exceptions that occur in the source.  `httpExc` is FastAPI's
`HTTPException(status_code, detail)`, `httpError` is `requests.HTTPError`
carrying `response.status_code` and `response.text`, and `other` stands for
any remaining exception (`AttributeError`, `TypeError`, transport errors,
...).  For `other` we model only a tag for the exception kind, not
CPython's exact message text; no theorem below depends on the message of an
`other` error. -/
inductive PyErr where
  | httpExc : Nat → String → PyErr
  | httpError : Nat → String → PyErr
  | other : String → PyErr

/-- Python `str(e)` / f-string rendering of an exception, as used by the
generic `except Exception as e` branches.  Starlette's `HTTPException`
renders as `"{status_code}: {detail}"`; for `requests.HTTPError` we keep an
abstract rendering built from the status and text. -/
def strOfErr : PyErr → String
  | .httpExc s d => toString s ++ ": " ++ d
  | .httpError c t => toString c ++ " Error: " ++ t
  | .other m => m

/-- Python `x.get(k, dflt)` / `x.get(k)` (with `dflt = JVal.null`):
a lookup on a dict, an `AttributeError` on any non-dict value. -/
def pyGet (v : JVal) (k : String) (dflt : JVal) : Except PyErr JVal :=
  match v with
  | .obj kvs => .ok ((kvs.lookup k).getD dflt)
  | _ => .error (.other "AttributeError")

/-- Python `for x in v` materialised as a list.  Only iteration over JSON
arrays is modelled; iterating any other value is an error here.  (CPython
would also iterate dict keys and string characters; no handler input in any
theorem below exercises those cases.) -/
def pyIter : JVal → Except PyErr (List JVal)
  | .arr xs => .ok xs
  | _ => .error (.other "TypeError")

/-- The environment-supplied configuration read at module load
(`os.getenv` calls at the top of `main.py`).  `AT_TABLE` has the default
`"events"`, hence is always a string. -/
structure Config where
  DO_TOKEN : Option String
  AT_BASE : Option String
  AT_KEY : Option String
  AT_TABLE : String
  ADMIN_TOKEN : Option String

/-- The `fields` dict that `log_event` builds: one Event Row. -/
structure EventRow where
  droplet_id : JVal
  name : JVal
  ip : JVal
  status : JVal
  created : JVal
  assigned_to : JVal

/-- The field defaults applied inside `log_event`:
`droplet_id if droplet_id is not None else ""`, `name or ""`, `ip or ""`,
`created or time.strftime(...)` (the wall clock is the `now` argument),
`assigned_to or ""`; `status` is passed through unchanged. -/
def mkFields (now : String) (droplet_id name ip status created assigned_to : JVal) : EventRow :=
  { droplet_id := if isNull droplet_id then JVal.str "" else droplet_id
    name := pyOr name (JVal.str "")
    ip := pyOr ip (JVal.str "")
    status := status
    created := pyOr created (JVal.str now)
    assigned_to := pyOr assigned_to (JVal.str "") }

/-- The `if not (AT_BASE and AT_KEY and AT_TABLE)` guard of `log_event`. -/
def atConfigured (cfg : Config) : Bool :=
  optTruthy cfg.AT_BASE && optTruthy cfg.AT_KEY && decide (cfg.AT_TABLE ≠ "")

/-- The logging-sink oracle: the outcome of the `requests.post` append call
for a given row (`Except.error` = any exception raised by the call). -/
def Sink := EventRow → Except String Unit

/-- `log_event`.  Returns `(rows, posts)`: `rows` is the Event Row this
invocation describes (the `fields` dict with defaults applied — recorded
unconditionally so that theorems can also speak about the rows a handler
produces in degraded mode), and `posts` is the list of HTTP append calls
actually attempted (empty when the sink triple is unconfigured).  The
`match` on the sink outcome mirrors `try: requests.post(...) except
Exception: pass`: both outcomes yield the same result, so a sink failure is
swallowed and never reported to the caller. -/
def log_event (cfg : Config) (sink : Sink) (now : String)
    (droplet_id name ip status created assigned_to : JVal) :
    List EventRow × List EventRow :=
  let row := mkFields now droplet_id name ip status created assigned_to
  if atConfigured cfg then
    match sink row with
    | .ok _ => ([row], [row])
    | .error _ => ([row], [row])
  else ([row], [])

/-- The provider oracle: the outcome of one
`requests.request(method, url, ..., json=body)` call to the DigitalOcean
API, after `raise_for_status` and `r.json()`: `ok` is the parsed 2xx body
(`{}` for an empty body), `httpError` a non-2xx status with its response
text, `exn` any other failure (timeout, connection error, bad JSON). -/
inductive DoResult where
  | ok : JVal → DoResult
  | httpError : Nat → String → DoResult
  | exn : String → DoResult

def Provider := String → String → Option JVal → DoResult

/-- One outbound DigitalOcean API call, recorded for the frame conditions. -/
structure DoCall where
  method : String
  path : String
  body : Option JVal

/-- `do_api`: raises `HTTPException(500, "DO_TOKEN missing")` without
calling the provider when the token is unset or empty, otherwise performs
exactly one call and converts a non-2xx response into `requests.HTTPError`. -/
def do_api (cfg : Config) (p : Provider) (method path : String)
    (json_body : Option JVal) : Except PyErr JVal × List DoCall :=
  if optTruthy cfg.DO_TOKEN then
    match p method path json_body with
    | .ok v => (.ok v, [⟨method, path, json_body⟩])
    | .httpError c t => (.error (.httpError c t), [⟨method, path, json_body⟩])
    | .exn m => (.error (.other m), [⟨method, path, json_body⟩])
  else (.error (.httpExc 500 "DO_TOKEN missing"), [])

/-- Token extraction in `require_admin_auth`: a truthy `authorization`
header whose lowercasing starts with `"bearer "` yields the remainder
(`authorization[7:]`) of the original header; otherwise a truthy
`x_admin_token` header is used verbatim; otherwise no token. -/
def extract_token (authorization x_admin_token : Option String) : Option String :=
  if optTruthy authorization
      && pyStarts "bearer " (pyLower (authorization.getD "")) then
    some ((authorization.getD "").drop 7)
  else if optTruthy x_admin_token then x_admin_token
  else none

/-- `require_admin_auth` raises 401 exactly when this is `true`:
`not ADMIN_TOKEN or token != ADMIN_TOKEN`.  An absent token (`none`) never
equals a configured secret; if both are `None`, the first disjunct already
fires. -/
def require_admin_auth (cfg : Config) (authorization x_admin_token : Option String) : Bool :=
  !optTruthy cfg.ADMIN_TOKEN
    || !(extract_token authorization x_admin_token == cfg.ADMIN_TOKEN)

/-- The droplet-derived data interpolated into one dashboard card. -/
structure DashCard where
  droplet_id : JVal
  name : JVal
  status : JVal
  created : JVal
  assigned_to : String
  ip : JVal

/-- An HTTP response as seen by the client: a JSON 200 body, a JSON error
produced from `HTTPException(status, detail)`, an HTML response with its
status and text content (surrounding span/div markup elided), the rendered
dashboard page (card data; static HTML/CSS chrome elided), or a
crash — an exception that escapes the handler entirely. -/
inductive HResp where
  | jsonOk : JVal → HResp
  | jsonErr : Nat → String → HResp
  | html : Nat → String → HResp
  | page : List DashCard → HResp
  | crash : PyErr → HResp

/-- The observable outcome of one request: the HTTP response, the provider
calls made, the Event Rows passed to `log_event` (with field defaults
applied), and the append calls actually attempted against the sink. -/
structure Out where
  resp : HResp
  doCalls : List DoCall
  rows : List EventRow
  posts : List EventRow

/-- `GET /` — static health response, no side effects. -/
def health : Out :=
  ⟨.jsonOk (JVal.obj [("status", JVal.str "ok")]), [], [], []⟩

/-- `POST /register`.  The body is `none` when `await req.json()` raises
(unparseable JSON) and otherwise the parsed JSON object's key/value pairs
(a parseable body that is not a JSON object — which would raise an
`AttributeError` on `body.get` — is outside the scope of this model and of
every claim).
Validation: `droplet_id` missing exactly when `body.get("droplet_id")` is
`None`; `name`/`ip` missing when falsy.  On failure the 400 detail joins
the missing names with `", "` in the fixed order droplet_id, name, ip.  On
success one `registered` Event Row is logged and the body is echoed. -/
def register (cfg : Config) (sink : Sink) (now : String)
    (body : Option (List (String × JVal))) : Out :=
  match body with
  | none => ⟨.jsonErr 400 "Invalid JSON body", [], [], []⟩
  | some kvs =>
    let droplet_id := (kvs.lookup "droplet_id").getD JVal.null
    let name := (kvs.lookup "name").getD JVal.null
    let ip := (kvs.lookup "ip").getD JVal.null
    let created := (kvs.lookup "created").getD JVal.null
    let assigned_to := (kvs.lookup "assigned_to").getD JVal.null
    let missing : List String :=
      (if isNull droplet_id then ["droplet_id"] else []) ++
      (if truthy name then [] else ["name"]) ++
      (if truthy ip then [] else ["ip"])
    if missing.isEmpty then
      let (r, p) := log_event cfg sink now droplet_id name ip (JVal.str "registered")
        created assigned_to
      ⟨.jsonOk (JVal.obj [("ok", JVal.bool true), ("received", JVal.obj kvs)]), [], r, p⟩
    else
      ⟨.jsonErr 400 ("Missing required fields: " ++ String.intercalate ", " missing),
        [], [], []⟩

/-- `next((tag.replace("assigned:", "") for tag in tags if
tag.startswith("assigned:")), dflt)`: scan the tags left to right, stop at
the first one starting with `"assigned:"` and strip every occurrence of
that substring from it; yield the default when none matches.  A non-string
tag reached before a match raises (`AttributeError`); tags after the first
match are never inspected, as with Python's lazy generator. -/
def assigned_next : List JVal → String → Except PyErr String
  | [], dflt => .ok dflt
  | t :: ts, dflt =>
    match t with
    | .str s =>
      if pyStarts "assigned:" s then .ok (py_replace s "assigned:" "")
      else assigned_next ts dflt
    | _ => .error (.other "AttributeError")

/-- `next((n for n in v4_list if n.get("type") == "public"), None)`:
first entry whose `type` equals `"public"`; `n.get` raises on a non-dict
entry reached before a match. -/
def first_public : List JVal → Except PyErr (Option JVal)
  | [] => .ok none
  | n :: ns =>
    match pyGet n "type" JVal.null with
    | .error e => .error e
    | .ok t => if jeqStr t "public" then .ok (some n) else first_public ns

/-- `d.get("networks", {}).get("v4", [])`. -/
def v4_of (d : JVal) : Except PyErr JVal :=
  match pyGet d "networks" (JVal.obj []) with
  | .error e => .error e
  | .ok networks => pyGet networks "v4" (JVal.arr [])

/-- The body of the listing endpoint's address extraction, before its
`try`/`except`: when the v4 value is a non-empty list, take the first
public entry (or the first entry when none is public — that entry is then
a dict, since `first_public` inspected it) and read its `ip_address`;
otherwise leave the address as `None`. -/
def ip_inner (d : JVal) : Except PyErr JVal :=
  match v4_of d with
  | .error e => .error e
  | .ok (.arr (x :: xs)) =>
    match first_public (x :: xs) with
    | .error e => .error e
    | .ok (some p) => pyGet p "ip_address" JVal.null
    | .ok none => pyGet x "ip_address" JVal.null
  | .ok _ => .ok JVal.null

/-- The listing endpoint's address extraction with its own
`try: ... except Exception: ip = None`: malformed network data degrades to
no address instead of an error. -/
def ip_try (d : JVal) : JVal :=
  match ip_inner d with
  | .ok v => v
  | .error _ => JVal.null

/-- The arguments of the `log_event` call the listing endpoint makes for
one droplet. -/
structure LogArgs where
  droplet_id : JVal
  name : JVal
  ip : JVal
  status : JVal
  created : JVal
  assigned_to : JVal

/-- Per-droplet work of the listing endpoint: read `id`, `name`, `status`,
`created_at`, extract the assignment label (default `""`) and the address,
and build both the response row and the `log_event` arguments
(`ip or ""`, `status or "unknown"`). -/
def norm_droplet (d : JVal) : Except PyErr (JVal × LogArgs) :=
  match pyGet d "id" JVal.null, pyGet d "name" JVal.null,
      pyGet d "status" JVal.null, pyGet d "created_at" JVal.null,
      pyGet d "tags" (JVal.arr []) with
  | .ok droplet_id, .ok name, .ok status, .ok created_at, .ok tagsJ =>
    (match pyIter tagsJ with
     | .error e => .error e
     | .ok tags =>
       match assigned_next tags "" with
       | .error e => .error e
       | .ok assigned_to =>
         let ip := ip_try d
         .ok (JVal.obj [("droplet_id", droplet_id), ("name", name), ("ip", ip),
               ("status", status), ("created", created_at),
               ("assigned_to", JVal.str assigned_to)],
           ⟨droplet_id, name, pyOr ip (JVal.str ""),
             pyOr status (JVal.str "unknown"), created_at, JVal.str assigned_to⟩))
  | .error e, _, _, _, _ => .error e
  | _, .error e, _, _, _ => .error e
  | _, _, .error e, _, _ => .error e
  | _, _, _, .error e, _ => .error e
  | _, _, _, _, .error e => .error e

/-- The `for d in droplets` loop of the listing endpoint: normalize each
droplet, log one Event Row per droplet in loop order; an exception aborts
the loop but the rows already logged remain. -/
def process_list (cfg : Config) (sink : Sink) (now : String) :
    List JVal → Except PyErr (List JVal) × List EventRow × List EventRow
  | [] => (.ok [], [], [])
  | d :: ds =>
    match norm_droplet d with
    | .error e => (.error e, [], [])
    | .ok (row, a) =>
      let (r, p) := log_event cfg sink now a.droplet_id a.name a.ip a.status
        a.created a.assigned_to
      match process_list cfg sink now ds with
      | (.ok rest, r2, p2) => (.ok (row :: rest), r ++ r2, p ++ p2)
      | (.error e, r2, p2) => (.error e, r ++ r2, p ++ p2)

/-- The shared failure path of `GET /list`: both `except` branches log one
`error` Event Row (with an explicit wall-clock `created`), the
`requests.HTTPError` branch builds the DigitalOcean detail string, the
generic branch uses `str(e)`. -/
def list_err (cfg : Config) (sink : Sink) (now : String) (e : PyErr)
    (calls : List DoCall) (r p : List EventRow) : Out :=
  let (r2, p2) := log_event cfg sink now JVal.null JVal.null JVal.null
    (JVal.str "error") (JVal.str now) JVal.null
  let detail := match e with
    | .httpError c t => "DigitalOcean API error: " ++ toString c ++ " " ++ t
    | _ => strOfErr e
  ⟨.jsonErr 500 detail, calls, r ++ r2, p ++ p2⟩

/-- `GET /list`. -/
def list_droplets (cfg : Config) (p : Provider) (sink : Sink) (now : String) : Out :=
  let (res, calls) := do_api cfg p "GET" "/droplets" none
  match res with
  | .error e => list_err cfg sink now e calls [] []
  | .ok data =>
    match pyGet data "droplets" (JVal.arr []) with
    | .error e => list_err cfg sink now e calls [] []
    | .ok dropletsJ =>
      match pyIter dropletsJ with
      | .error e => list_err cfg sink now e calls [] []
      | .ok ds =>
        match process_list cfg sink now ds with
        | (.ok results, r, pp) =>
          ⟨.jsonOk (JVal.obj [("count", JVal.num results.length),
              ("droplets", JVal.arr results)]), calls, r, pp⟩
        | (.error e, r, pp) => list_err cfg sink now e calls r pp

/-- The dashboard's address extraction for one card.  Identical choice of
entry to the listing endpoint, but the default is `"-"`, a falsy
`ip_address` also becomes `"-"` (`... or "-"`), and — crucially — there is
no surrounding `try`/`except`: an error propagates. -/
def dash_ip (d : JVal) : Except PyErr JVal :=
  match v4_of d with
  | .error e => .error e
  | .ok (.arr (x :: xs)) =>
    (match first_public (x :: xs) with
     | .error e => .error e
     | .ok pub =>
       match (match pub with
              | some p => pyGet p "ip_address" JVal.null
              | none => pyGet x "ip_address" JVal.null) with
       | .error e => .error e
       | .ok raw => .ok (pyOr raw (JVal.str "-")))
  | .ok _ => .ok (JVal.str "-")

/-- One dashboard card, built from a provider droplet record; the
assignment default here is `"Unassigned"`. -/
def dash_card (d : JVal) : Except PyErr DashCard :=
  match pyGet d "id" JVal.null, pyGet d "name" JVal.null,
      pyGet d "status" JVal.null, pyGet d "created_at" JVal.null,
      pyGet d "tags" (JVal.arr []) with
  | .ok droplet_id, .ok name, .ok status, .ok created, .ok tagsJ =>
    (match pyIter tagsJ with
     | .error e => .error e
     | .ok tags =>
       match assigned_next tags "Unassigned" with
       | .error e => .error e
       | .ok assigned_to =>
         match dash_ip d with
         | .error e => .error e
         | .ok ip => .ok ⟨droplet_id, name, status, created, assigned_to, ip⟩)
  | .error e, _, _, _, _ => .error e
  | _, .error e, _, _, _ => .error e
  | _, _, .error e, _, _ => .error e
  | _, _, _, .error e, _ => .error e
  | _, _, _, _, .error e => .error e

/-- The dashboard's card loop (it does not log anything). -/
def dash_cards : List JVal → Except PyErr (List DashCard)
  | [] => .ok []
  | d :: ds =>
    match dash_card d with
    | .error e => .error e
    | .ok c =>
      match dash_cards ds with
      | .error e => .error e
      | .ok cs => .ok (c :: cs)

/-- `GET /dashboard`.  Only the provider fetch and the `droplets` lookup
are inside the `try`: a fetch failure renders an inline error panel (an
HTML 200 response).  The card loop runs outside the `try`, so an exception
there escapes the handler (`HResp.crash`). -/
def dashboard (cfg : Config) (p : Provider) : Out :=
  let (res, calls) := do_api cfg p "GET" "/droplets" none
  match res with
  | .error e => ⟨.html 200 ("Error loading droplets: " ++ strOfErr e), calls, [], []⟩
  | .ok data =>
    match pyGet data "droplets" (JVal.arr []) with
    | .error e => ⟨.html 200 ("Error loading droplets: " ++ strOfErr e), calls, [], []⟩
    | .ok dropletsJ =>
      match pyIter dropletsJ with
      | .error e => ⟨.crash e, calls, [], []⟩
      | .ok ds =>
        match dash_cards ds with
        | .error e => ⟨.crash e, calls, [], []⟩
        | .ok cards => ⟨.page cards, calls, [], []⟩

/-- `POST /dashboard/edit` (form-based).  Authorization compares the
whitespace-stripped form token against the whitespace-stripped secret; the
`assigned_to` form field is accepted but unused (UI-only).  No Event Row is
ever logged by this handler. -/
def dashboard_edit (cfg : Config) (p : Provider) (droplet_id : Int)
    (name : String) (assigned_to : String) (admin_token : String) : Out :=
  if !optTruthy cfg.ADMIN_TOKEN
      || !(pyStrip admin_token == pyStrip (cfg.ADMIN_TOKEN.getD "")) then
    ⟨.html 401 "Unauthorized", [], [], []⟩
  else
    let (res, calls) := do_api cfg p "PUT" ("/droplets/" ++ toString droplet_id)
      (some (JVal.obj [("name", JVal.str name)]))
    match res with
    | .ok _ => ⟨.html 200 "Updated", calls, [], []⟩
    | .error (.httpError c t) =>
      ⟨.html 500 ("DO error: " ++ toString c ++ " - " ++ t), calls, [], []⟩
    | .error e => ⟨.html 500 ("Error: " ++ strOfErr e), calls, [], []⟩

/-- `POST /power/{droplet_id}?action=...`.  Authorization is checked
before the action is validated; an invalid action with passing
authorization is a 400. -/
def power_action (cfg : Config) (p : Provider) (sink : Sink) (now : String)
    (droplet_id : Int) (action : String)
    (authorization x_admin_token : Option String) : Out :=
  if require_admin_auth cfg authorization x_admin_token then
    ⟨.jsonErr 401 "Unauthorized", [], [], []⟩
  else if !(["power_on", "power_off", "reboot"].contains action) then
    ⟨.jsonErr 400 "Invalid action", [], [], []⟩
  else
    let (res, calls) := do_api cfg p "POST"
      ("/droplets/" ++ toString droplet_id ++ "/actions")
      (some (JVal.obj [("type", JVal.str action)]))
    match res with
    | .ok resp =>
      let (r, pp) := log_event cfg sink now (JVal.num droplet_id) JVal.null JVal.null
        (JVal.str ("action:" ++ action)) JVal.null JVal.null
      ⟨.jsonOk (JVal.obj [("ok", JVal.bool true), ("action", JVal.str action),
          ("droplet_id", JVal.num droplet_id), ("response", resp)]), calls, r, pp⟩
    | .error (.httpError c t) =>
      let (r, pp) := log_event cfg sink now (JVal.num droplet_id) JVal.null JVal.null
        (JVal.str "error") JVal.null JVal.null
      ⟨.jsonErr 500 ("DigitalOcean API error: " ++ toString c ++ " " ++ t), calls, r, pp⟩
    | .error e =>
      let (r, pp) := log_event cfg sink now (JVal.num droplet_id) JVal.null JVal.null
        (JVal.str "error") JVal.null JVal.null
      ⟨.jsonErr 500 (strOfErr e), calls, r, pp⟩

/-- `DELETE /destroy/{droplet_id}`. -/
def destroy (cfg : Config) (p : Provider) (sink : Sink) (now : String)
    (droplet_id : Int) (authorization x_admin_token : Option String) : Out :=
  if require_admin_auth cfg authorization x_admin_token then
    ⟨.jsonErr 401 "Unauthorized", [], [], []⟩
  else
    let (res, calls) := do_api cfg p "DELETE" ("/droplets/" ++ toString droplet_id) none
    match res with
    | .ok _ =>
      let (r, pp) := log_event cfg sink now (JVal.num droplet_id) JVal.null JVal.null
        (JVal.str "destroyed") JVal.null JVal.null
      ⟨.jsonOk (JVal.obj [("ok", JVal.bool true), ("droplet_id", JVal.num droplet_id)]),
        calls, r, pp⟩
    | .error (.httpError c t) =>
      let (r, pp) := log_event cfg sink now (JVal.num droplet_id) JVal.null JVal.null
        (JVal.str "error") JVal.null JVal.null
      ⟨.jsonErr 500 ("DigitalOcean API error: " ++ toString c ++ " " ++ t), calls, r, pp⟩
    | .error e =>
      let (r, pp) := log_event cfg sink now (JVal.num droplet_id) JVal.null JVal.null
        (JVal.str "error") JVal.null JVal.null
      ⟨.jsonErr 500 (strOfErr e), calls, r, pp⟩

/-! ## Specification-side (total) descriptions of the normalizer

The following definitions restate, in total form, what the spec says the
normalizer computes.  The theorems below relate them to the embedded code. -/

/-- Total field read on a JSON value (the value of `d.get(k, dflt)` when it
does not raise). -/
def jfield (d : JVal) (k : String) (dflt : JVal) : JVal :=
  match d with
  | .obj kvs => (kvs.lookup k).getD dflt
  | _ => dflt

/-- Is the value a JSON object? -/
def is_obj : JVal → Bool
  | .obj _ => true
  | _ => false

/-- Is the value a non-empty JSON array? -/
def nonemptyArr : JVal → Bool
  | .arr (_ :: _) => true
  | _ => false

/-- The string carried by a JSON string value. -/
def strOnly : JVal → Option String
  | .str s => some s
  | _ => none

/-- Is the value an array of JSON strings? -/
def all_str : JVal → Bool
  | .arr xs => xs.all (fun x => (strOnly x).isSome)
  | _ => false

/-- The strings of an array of JSON strings. -/
def strListOf : JVal → List String
  | .arr xs => xs.filterMap strOnly
  | _ => []

/-- An entry "whose type marker equals `public`" (spec wording). -/
def pubTest (n : JVal) : Bool := jeqStr (jfield n "type" JVal.null) "public"

/-- Modelled from the spec's words for the address of a non-empty IPv4
entry list: the `ip_address` of the first entry marked public, or of the
first entry when none is marked public. -/
def spec_address (l : List JVal) : JVal :=
  match l.find? pubTest with
  | some p => jfield p "ip_address" JVal.null
  | none =>
    match l with
    | [] => JVal.null
    | x :: _ => jfield x "ip_address" JVal.null

/-- Total form of the tag scan: the first tag starting with `"assigned:"`,
with every occurrence of that substring removed, else the default. -/
def assigned_total (ts : List String) (dflt : String) : String :=
  match ts.find? (fun s => pyStarts "assigned:" s) with
  | some t => py_replace t "assigned:" ""
  | none => dflt

/-- A droplet record the listing loop processes without an exception: a
JSON object whose `tags` value is an array of strings. -/
def wf_droplet (d : JVal) : Bool :=
  is_obj d && all_str (jfield d "tags" (JVal.arr []))

/-- Total form of the listing endpoint's `log_event` arguments for one
droplet. -/
def ev_args (d : JVal) : LogArgs :=
  ⟨jfield d "id" JVal.null, jfield d "name" JVal.null,
    pyOr (ip_try d) (JVal.str ""),
    pyOr (jfield d "status" JVal.null) (JVal.str "unknown"),
    jfield d "created_at" JVal.null,
    JVal.str (assigned_total (strListOf (jfield d "tags" (JVal.arr []))) "")⟩

/-- Total form of the listing endpoint's response row for one droplet. -/
def row_total (d : JVal) : JVal :=
  JVal.obj [("droplet_id", jfield d "id" JVal.null),
    ("name", jfield d "name" JVal.null), ("ip", ip_try d),
    ("status", jfield d "status" JVal.null),
    ("created", jfield d "created_at" JVal.null),
    ("assigned_to", JVal.str (assigned_total (strListOf (jfield d "tags" (JVal.arr []))) ""))]

/-- Total form of the Event Row the listing endpoint logs for one droplet. -/
def ev_total (now : String) (d : JVal) : EventRow :=
  mkFields now (ev_args d).droplet_id (ev_args d).name (ev_args d).ip
    (ev_args d).status (ev_args d).created (ev_args d).assigned_to

/-! ## Helper lemmas -/

/-- `log_event` in closed form: the row is always described, the append is
attempted exactly when the sink triple is configured, and the sink call's
outcome does not influence the result (`except Exception: pass`). -/
theorem log_event_eq (cfg : Config) (sink : Sink) (now : String)
    (a b c d e f : JVal) :
    log_event cfg sink now a b c d e f =
      ([mkFields now a b c d e f],
        if atConfigured cfg then [mkFields now a b c d e f] else []) := by
  unfold log_event
  by_cases h : atConfigured cfg
  · simp only [h, if_true]
    cases hs : sink (mkFields now a b c d e f) <;> simp [hs]
  · simp [h]

/-- The tag scan on an all-string tag list never raises and computes
`assigned_total`. -/
theorem assigned_next_strings (ts : List String) (dflt : String) :
    assigned_next (ts.map JVal.str) dflt = .ok (assigned_total ts dflt) := by
  induction ts with
  | nil => rfl
  | cons t ts ih =>
    by_cases h : pyStarts "assigned:" t
    · simp [assigned_next, assigned_total, List.find?_cons, h]
    · simp only [List.map_cons, assigned_next, h, if_false, Bool.false_eq_true, ih]
      simp [assigned_total, List.find?_cons, h]

/-- An array passing `all_str` is the image of its string list. -/
theorem all_str_map (v : JVal) (h : all_str v = true) :
    v = JVal.arr ((strListOf v).map JVal.str) := by
  cases v with
  | arr xs =>
    simp only [strListOf]
    congr 1
    induction xs with
    | nil => rfl
    | cons x xs ih =>
      simp only [all_str, List.all_cons, Bool.and_eq_true] at h
      obtain ⟨hx, hxs⟩ := h
      cases x <;> simp [strOnly] at hx ⊢
      exact ih hxs
  | null => simp [all_str] at h
  | bool b => simp [all_str] at h
  | num n => simp [all_str] at h
  | str s => simp [all_str] at h
  | obj kvs => simp [all_str] at h

/-- `pyGet` on an object succeeds with the total field read. -/
theorem pyGet_obj (d : JVal) (k : String) (dflt : JVal) (h : is_obj d = true) :
    pyGet d k dflt = .ok (jfield d k dflt) := by
  cases d <;> simp [is_obj] at h <;> rfl

/-- On a list of objects, the public-entry search never raises and finds
the first entry whose type marker equals `"public"`. -/
theorem first_public_objs (l : List JVal) (h : ∀ n ∈ l, is_obj n = true) :
    first_public l = .ok (l.find? pubTest) := by
  induction l with
  | nil => rfl
  | cons n ns ih =>
    have hn : is_obj n = true := h n (List.mem_cons_self n ns)
    simp only [first_public, pyGet_obj n "type" JVal.null hn, List.find?_cons]
    by_cases hp : pubTest n
    · have hp2 : jeqStr (jfield n "type" JVal.null) "public" = true := hp
      simp [hp, hp2]
    · have hp2 : jeqStr (jfield n "type" JVal.null) "public" = false := by
        simpa [pubTest] using hp
      simp [hp, hp2, ih (fun m hm => h m (List.mem_cons_of_mem n hm))]

/-- When the v4 value is not a non-empty array, the listing extraction
yields no address and the dashboard extraction yields `"-"`; neither
raises. -/
theorem ip_not_list (d v : JVal) (hv : v4_of d = .ok v)
    (hne : nonemptyArr v = false) :
    ip_inner d = .ok JVal.null ∧ dash_ip d = .ok (JVal.str "-") := by
  unfold ip_inner dash_ip
  rw [hv]
  cases v with
  | arr xs =>
    cases xs with
    | nil => exact ⟨rfl, rfl⟩
    | cons x xs => simp [nonemptyArr] at hne
  | null => exact ⟨rfl, rfl⟩
  | bool b => exact ⟨rfl, rfl⟩
  | num n => exact ⟨rfl, rfl⟩
  | str s => exact ⟨rfl, rfl⟩
  | obj kvs => exact ⟨rfl, rfl⟩

/-- When the v4 value is a non-empty array of objects, both extractions
compute the spec-side address (the dashboard additionally replaces a falsy
address by `"-"`); neither raises. -/
theorem ip_entries (d x : JVal) (xs : List JVal)
    (hv : v4_of d = .ok (JVal.arr (x :: xs)))
    (h : ∀ n ∈ x :: xs, is_obj n = true) :
    ip_inner d = .ok (spec_address (x :: xs)) ∧
    dash_ip d = .ok (pyOr (spec_address (x :: xs)) (JVal.str "-")) := by
  have hfp := first_public_objs (x :: xs) h
  unfold ip_inner dash_ip
  rw [hv]
  cases hf : (x :: xs).find? pubTest with
  | some p =>
    have hp : is_obj p = true := h p (List.mem_of_find?_eq_some hf)
    rw [hf] at hfp
    simp only [hfp, spec_address, hf, pyGet_obj p "ip_address" JVal.null hp]
    exact ⟨trivial, trivial⟩
  | none =>
    have hx : is_obj x = true := h x (List.mem_cons_self x xs)
    rw [hf] at hfp
    simp only [hfp, spec_address, hf, pyGet_obj x "ip_address" JVal.null hx]
    exact ⟨trivial, trivial⟩

/-- The listing endpoint's catch: whenever the inner extraction raises,
the address degrades to `None`. -/
theorem ip_try_of_err (d : JVal) (h : (ip_inner d).isOk = false) :
    ip_try d = JVal.null := by
  unfold ip_try
  cases hi : ip_inner d with
  | ok v => rw [hi] at h; simp [Except.isOk, Except.toBool] at h
  | error e => rfl

/-- A well-formed droplet record normalizes without an exception, to the
total row and log-argument forms. -/
theorem norm_droplet_wf (d : JVal) (h : wf_droplet d = true) :
    norm_droplet d = .ok (row_total d, ev_args d) := by
  simp only [wf_droplet, Bool.and_eq_true] at h
  obtain ⟨ho, ht⟩ := h
  have htags := all_str_map _ ht
  unfold norm_droplet
  rw [pyGet_obj d "id" JVal.null ho, pyGet_obj d "name" JVal.null ho,
    pyGet_obj d "status" JVal.null ho, pyGet_obj d "created_at" JVal.null ho,
    pyGet_obj d "tags" (JVal.arr []) ho]
  rw [htags]
  simp only [pyIter, assigned_next_strings]
  rfl

/-- The listing loop on well-formed droplets: the response rows and Event
Rows are the per-droplet total forms, in provider order, one per droplet;
the sink posts are the same rows when the sink is configured and nothing
otherwise. -/
theorem process_list_wf (cfg : Config) (sink : Sink) (now : String)
    (ds : List JVal) (h : ∀ d ∈ ds, wf_droplet d = true) :
    process_list cfg sink now ds =
      (.ok (ds.map row_total), ds.map (ev_total now),
        if atConfigured cfg then ds.map (ev_total now) else []) := by
  induction ds with
  | nil => simp [process_list]
  | cons d ds ih =>
    have hd : wf_droplet d = true := h d (List.mem_cons_self d ds)
    have hds : ∀ x ∈ ds, wf_droplet x = true :=
      fun x hx => h x (List.mem_cons_of_mem d hx)
    simp only [process_list, norm_droplet_wf d hd, log_event_eq, ih hds]
    by_cases hc : atConfigured cfg <;> simp [hc, ev_total]

/-- The listing loop's result does not depend on the sink outcomes. -/
theorem process_list_sink_eq (cfg : Config) (s1 s2 : Sink) (now : String)
    (ds : List JVal) :
    process_list cfg s1 now ds = process_list cfg s2 now ds := by
  induction ds with
  | nil => rfl
  | cons d ds ih => simp only [process_list, log_event_eq, ih]

/-! ## Concrete fixtures for witnesses and counterexamples -/

/-- A sink whose append calls succeed. -/
def sink0 : Sink := fun _ => .ok ()

/-- A sink whose append calls all raise (logging store unavailable). -/
def sinkDown : Sink := fun _ => .error "connection error"

/-- Fully configured environment with admin secret `"s"`. -/
def cfgS : Config := ⟨some "dot", some "base", some "key", "events", some "s"⟩

/-- Environment with no admin secret configured. -/
def cfgNoAdmin : Config := ⟨some "dot", some "base", some "key", "events", none⟩

/-- Environment with the logging-store triple unconfigured. -/
def cfgNoSink : Config := ⟨some "dot", none, none, "events", some "s"⟩

/-- Provider that answers every call with an empty 2xx object. -/
def provOk : Provider := fun _ _ _ => .ok (JVal.obj [])

/-- Provider that answers every call with HTTP 404. -/
def provErr404 : Provider := fun _ _ _ => .httpError 404 "not found"

/-! ## Claim C1 -/

/-- Claim C1, counterexample: the admin secret is `"s"` and a
dashboard-edit request supplies the token `" s"`, which does not match the
configured secret; the claim then demands a 401 with no provider call, but
the handler strips surrounding whitespace from both sides before comparing,
accepts the request, performs a provider call and returns 200. -/
theorem edit_trimmed_token_accepted :
    " s" ≠ "s" ∧
    dashboard_edit cfgS provOk 5 "new" "" " s" =
      ⟨.html 200 "Updated",
        [⟨"PUT", "/droplets/5", some (JVal.obj [("name", JVal.str "new")])⟩], [], []⟩ ∧
    (dashboard_edit cfgS provOk 5 "new" "" " s").resp ≠ HResp.html 401 "Unauthorized" := by
  refine ⟨by decide, rfl, fun hc => ?_⟩
  rw [show (dashboard_edit cfgS provOk 5 "new" "" " s").resp =
    HResp.html 200 "Updated" from rfl] at hc
  injection hc with h1 h2
  exact absurd h1 (by decide)

/-- Claim C1 (amended): for power control and destroy, if no admin secret
is configured (unset or empty) or the extracted token differs from the
secret, the handler returns 401 and performs no provider call and no log
write.  For dashboard-edit the comparison is made after stripping
surrounding whitespace from both the supplied form token and the secret:
under that comparison a failure likewise yields 401 with no provider call
and no log write (a supplied token differing from the secret only by
surrounding whitespace is accepted). -/
theorem auth_gate_unauthorized (cfg : Config) (p : Provider) (sink : Sink)
    (now : String) (droplet_id : Int) (action name assigned_to admin_token : String)
    (authorization x_admin_token : Option String) :
    (optTruthy cfg.ADMIN_TOKEN = false ∨
        extract_token authorization x_admin_token ≠ cfg.ADMIN_TOKEN →
      power_action cfg p sink now droplet_id action authorization x_admin_token =
        ⟨.jsonErr 401 "Unauthorized", [], [], []⟩ ∧
      destroy cfg p sink now droplet_id authorization x_admin_token =
        ⟨.jsonErr 401 "Unauthorized", [], [], []⟩) ∧
    (optTruthy cfg.ADMIN_TOKEN = false ∨
        pyStrip admin_token ≠ pyStrip (cfg.ADMIN_TOKEN.getD "") →
      dashboard_edit cfg p droplet_id name assigned_to admin_token =
        ⟨.html 401 "Unauthorized", [], [], []⟩) := by
  constructor
  · intro h
    have hr : require_admin_auth cfg authorization x_admin_token = true := by
      unfold require_admin_auth
      rcases h with h | h
      · simp [h]
      · simp [h]
    constructor
    · simp [power_action, hr]
    · simp [destroy, hr]
  · intro h
    have hr : (!optTruthy cfg.ADMIN_TOKEN
        || !(pyStrip admin_token == pyStrip (cfg.ADMIN_TOKEN.getD ""))) = true := by
      rcases h with h | h
      · simp [h]
      · simp [h]
    simp [dashboard_edit, hr]

/-- Claim C1 witness at concrete inputs: no secret configured (power),
a wrong bearer token (destroy), and a wrong form token (dashboard-edit). -/
theorem auth_gate_unauthorized_witness :
    power_action cfgNoAdmin provOk sink0 "t" 1 "reboot" none none =
      ⟨.jsonErr 401 "Unauthorized", [], [], []⟩ ∧
    destroy cfgS provOk sink0 "t" 1 (some "Bearer wrong") none =
      ⟨.jsonErr 401 "Unauthorized", [], [], []⟩ ∧
    dashboard_edit cfgS provOk 1 "n" "" "wrong" =
      ⟨.html 401 "Unauthorized", [], [], []⟩ :=
  ⟨((auth_gate_unauthorized cfgNoAdmin provOk sink0 "t" 1 "reboot" "n" "" "wrong"
      none none).1 (Or.inl rfl)).1,
   ((auth_gate_unauthorized cfgS provOk sink0 "t" 1 "reboot" "n" "" "wrong"
      (some "Bearer wrong") none).1 (Or.inr (by decide))).2,
   (auth_gate_unauthorized cfgS provOk sink0 "t" 1 "reboot" "n" "" "wrong"
      none none).2 (Or.inr (by decide))⟩

/-! ## Claim C2 -/

/-- Registration payload whose `droplet_id` is present but the empty
string. -/
def bodyC2 : List (String × JVal) :=
  [("droplet_id", JVal.str ""), ("name", JVal.str "web"), ("ip", JVal.str "1.2.3.4")]

/-- Claim C2, counterexample: in the payload, `droplet_id` is the empty
string — an empty required field, for which the claim demands a 400 naming
`droplet_id` — but the handler only treats `None` as missing, so it accepts
the payload, returns 200 with the echo, and logs a `registered` Event
Row. -/
theorem register_empty_droplet_id_accepted :
    truthy (JVal.str "") = false ∧
    register cfgS sink0 "T" (some bodyC2) =
      ⟨.jsonOk (JVal.obj [("ok", JVal.bool true), ("received", JVal.obj bodyC2)]), [],
        [⟨JVal.str "", JVal.str "web", JVal.str "1.2.3.4", JVal.str "registered",
          JVal.str "T", JVal.str ""⟩],
        [⟨JVal.str "", JVal.str "web", JVal.str "1.2.3.4", JVal.str "registered",
          JVal.str "T", JVal.str ""⟩]⟩ ∧
    (register cfgS sink0 "T" (some bodyC2)).resp ≠
      HResp.jsonErr 400 "Missing required fields: droplet_id" := by
  refine ⟨rfl, rfl, fun hc => ?_⟩
  rw [show (register cfgS sink0 "T" (some bodyC2)).resp =
    HResp.jsonOk (JVal.obj [("ok", JVal.bool true), ("received", JVal.obj bodyC2)])
    from rfl] at hc
  exact HResp.noConfusion hc

/-- Claim C2 (amended): for every registration payload in which
`droplet_id` is absent or null, or `name` or `ip` is absent or falsy
(empty), the handler returns 400 whose message lists exactly the missing
field names, comma-joined, in the stable order droplet_id, name, ip, and
performs no provider call and no log write.  (A present but empty-string
`droplet_id` is not treated as missing.) -/
theorem register_missing_fields_400 (cfg : Config) (sink : Sink) (now : String)
    (kvs : List (String × JVal))
    (h : isNull ((kvs.lookup "droplet_id").getD JVal.null) = true ∨
         truthy ((kvs.lookup "name").getD JVal.null) = false ∨
         truthy ((kvs.lookup "ip").getD JVal.null) = false) :
    register cfg sink now (some kvs) =
      ⟨.jsonErr 400 ("Missing required fields: " ++ String.intercalate ", "
          ((if isNull ((kvs.lookup "droplet_id").getD JVal.null)
              then ["droplet_id"] else []) ++
           (if truthy ((kvs.lookup "name").getD JVal.null) then [] else ["name"]) ++
           (if truthy ((kvs.lookup "ip").getD JVal.null) then [] else ["ip"]))),
        [], [], []⟩ := by
  by_cases h1 : isNull ((kvs.lookup "droplet_id").getD JVal.null) <;>
    by_cases h2 : truthy ((kvs.lookup "name").getD JVal.null) <;>
    by_cases h3 : truthy ((kvs.lookup "ip").getD JVal.null) <;>
    simp [register, h1, h2, h3] at h ⊢

/-- Claim C2 witness: a payload containing only `name` is rejected with
the message naming `droplet_id` and `ip` in order. -/
theorem register_missing_fields_400_witness :
    register cfgS sink0 "T" (some [("name", JVal.str "web")]) =
      ⟨.jsonErr 400 "Missing required fields: droplet_id, ip", [], [], []⟩ :=
  register_missing_fields_400 cfgS sink0 "T" [("name", JVal.str "web")] (Or.inl rfl)

/-! ## Claim C3 -/

/-- A droplet record whose v4 list is non-empty but malformed: its single
entry is the number 5 rather than an object. -/
def dC3 : JVal := JVal.obj [("networks", JVal.obj [("v4", JVal.arr [JVal.num 5])])]

/-- Provider returning exactly the malformed droplet `dC3`. -/
def provC3 : Provider := fun _ _ _ => .ok (JVal.obj [("droplets", JVal.arr [dC3])])

/-- Claim C3, counterexample: on a droplet whose v4 list is `[5]`
(malformed network data), the claim demands that the address be absent and
the operation not fail; the listing extraction indeed degrades to no
address, but the dashboard runs the same extraction without the
`try`/`except` and the whole dashboard request fails with an unhandled
`AttributeError`. -/
theorem dashboard_malformed_v4_crashes :
    nonemptyArr (jfield (jfield dC3 "networks" (JVal.obj [])) "v4" (JVal.arr [])) = true ∧
    ip_try dC3 = JVal.null ∧
    (dashboard cfgS provC3).resp = HResp.crash (PyErr.other "AttributeError") :=
  ⟨rfl, rfl, rfl⟩

/-- Claim C3 (amended): address extraction reads the record's v4 list; if
it is a non-empty list of objects, the result is the `ip_address` of the
first entry whose type equals "public", or of the first entry if none is
marked public (the dashboard additionally renders a falsy address as
`"-"`); if the v4 value is absent, empty or not a list, the address is
absent in the listing and `"-"` on the dashboard, without failing; in the
listing endpoint any malformed record degrades to an absent address and
never fails, whereas the dashboard has no such protection (see the
counterexample). -/
theorem address_extraction_spec :
    (∀ d v, v4_of d = .ok v → nonemptyArr v = false →
      ip_try d = JVal.null ∧ dash_ip d = .ok (JVal.str "-")) ∧
    (∀ d x xs, v4_of d = .ok (JVal.arr (x :: xs)) →
      (∀ n ∈ x :: xs, is_obj n = true) →
      ip_try d = spec_address (x :: xs) ∧
      dash_ip d = .ok (pyOr (spec_address (x :: xs)) (JVal.str "-"))) ∧
    (∀ d, (ip_inner d).isOk = false → ip_try d = JVal.null) := by
  refine ⟨?_, ?_, ip_try_of_err⟩
  · intro d v hv hne
    obtain ⟨h1, h2⟩ := ip_not_list d v hv hne
    exact ⟨by unfold ip_try; rw [h1], h2⟩
  · intro d x xs hv h
    obtain ⟨h1, h2⟩ := ip_entries d x xs hv h
    exact ⟨by unfold ip_try; rw [h1], h2⟩

/-- The spec's own worked example: a private entry before a public one. -/
def dPub : JVal := JVal.obj [("networks", JVal.obj [("v4", JVal.arr
  [JVal.obj [("type", JVal.str "private"), ("ip_address", JVal.str "10.0.0.1")],
   JVal.obj [("type", JVal.str "public"), ("ip_address", JVal.str "1.2.3.4")]])])]

/-- Claim C3 witness: a record with no networks yields no address; the
spec's private-then-public example prefers the public address over order;
the malformed record degrades to no address in the listing. -/
theorem address_extraction_spec_witness :
    ip_try (JVal.obj []) = JVal.null ∧
    ip_try dPub = JVal.str "1.2.3.4" ∧
    ip_try dC3 = JVal.null := by
  have h := address_extraction_spec
  refine ⟨(h.1 (JVal.obj []) (JVal.arr []) rfl rfl).1, ?_, h.2.2 dC3 rfl⟩
  have hobjs : ∀ n ∈
      [JVal.obj [("type", JVal.str "private"), ("ip_address", JVal.str "10.0.0.1")],
       JVal.obj [("type", JVal.str "public"), ("ip_address", JVal.str "1.2.3.4")]],
      is_obj n = true := by
    intro n hn
    fin_cases hn <;> rfl
  exact ((h.2.1 dPub
    (JVal.obj [("type", JVal.str "private"), ("ip_address", JVal.str "10.0.0.1")])
    [JVal.obj [("type", JVal.str "public"), ("ip_address", JVal.str "1.2.3.4")]]
    rfl hobjs).1).trans rfl

/-! ## Claim C4 -/

/-- Claim C4, counterexample: the action `"fly"` is invalid, and no admin
secret is configured, so authorization is invalid; the claim demands a
400 regardless of authorization validity, but the handler checks
authorization first and returns 401. -/
theorem power_invalid_action_unauth_401 :
    (["power_on", "power_off", "reboot"].contains "fly") = false ∧
    power_action cfgNoAdmin provOk sink0 "T" 7 "fly" none none =
      ⟨.jsonErr 401 "Unauthorized", [], [], []⟩ ∧
    (power_action cfgNoAdmin provOk sink0 "T" 7 "fly" none none).resp ≠
      HResp.jsonErr 400 "Invalid action" := by
  refine ⟨rfl, rfl, fun hc => ?_⟩
  rw [show (power_action cfgNoAdmin provOk sink0 "T" 7 "fly" none none).resp =
    HResp.jsonErr 401 "Unauthorized" from rfl] at hc
  injection hc with h1 h2
  exact absurd h1 (by decide)

/-- Claim C4 (amended): for every power request whose action is not one of
power_on, power_off, reboot: when authorization passes, the response is 400
with no provider call and no log write; when authorization fails, the 401
takes precedence over the 400. -/
theorem power_invalid_action_400 (cfg : Config) (p : Provider) (sink : Sink)
    (now : String) (droplet_id : Int) (action : String)
    (authorization x_admin_token : Option String)
    (hact : (["power_on", "power_off", "reboot"].contains action) = false) :
    (require_admin_auth cfg authorization x_admin_token = false →
      power_action cfg p sink now droplet_id action authorization x_admin_token =
        ⟨.jsonErr 400 "Invalid action", [], [], []⟩) ∧
    (require_admin_auth cfg authorization x_admin_token = true →
      power_action cfg p sink now droplet_id action authorization x_admin_token =
        ⟨.jsonErr 401 "Unauthorized", [], [], []⟩) := by
  constructor <;> intro hr
  · unfold power_action
    rw [hr, hact]
    simp
  · unfold power_action
    rw [hr]
    simp

/-- Claim C4 witness: with a valid bearer token, the invalid action
`"fly"` is rejected with 400; with no token, the same request gets 401. -/
theorem power_invalid_action_400_witness :
    power_action cfgS provOk sink0 "T" 7 "fly" (some "Bearer s") none =
      ⟨.jsonErr 400 "Invalid action", [], [], []⟩ ∧
    power_action cfgS provOk sink0 "T" 7 "fly" none none =
      ⟨.jsonErr 401 "Unauthorized", [], [], []⟩ :=
  ⟨(power_invalid_action_400 cfgS provOk sink0 "T" 7 "fly" (some "Bearer s") none
      rfl).1 rfl,
   (power_invalid_action_400 cfgS provOk sink0 "T" 7 "fly" none none rfl).2 rfl⟩

/-! ## Claim C5 -/

/-- Claim C5: when an authorized destroy request's provider call fails
with a non-2xx response, the handler returns 500 with a body holding the
upstream status code and upstream text verbatim, makes exactly that one
provider call, and logs exactly one Event Row with status `error` for that
droplet id. -/
theorem destroy_provider_error_500 (cfg : Config) (p : Provider) (sink : Sink)
    (now : String) (droplet_id : Int) (authorization x_admin_token : Option String)
    (code : Nat) (text : String)
    (hauth : require_admin_auth cfg authorization x_admin_token = false)
    (htok : optTruthy cfg.DO_TOKEN = true)
    (hp : p "DELETE" ("/droplets/" ++ toString droplet_id) none = .httpError code text) :
    (destroy cfg p sink now droplet_id authorization x_admin_token).resp =
      .jsonErr 500 ("DigitalOcean API error: " ++ toString code ++ " " ++ text) ∧
    (∃ pre, "DigitalOcean API error: " ++ toString code ++ " " ++ text =
      pre ++ toString code ++ " " ++ text) ∧
    (destroy cfg p sink now droplet_id authorization x_admin_token).rows =
      [⟨JVal.num droplet_id, JVal.str "", JVal.str "", JVal.str "error",
        JVal.str now, JVal.str ""⟩] ∧
    (destroy cfg p sink now droplet_id authorization x_admin_token).doCalls =
      [⟨"DELETE", "/droplets/" ++ toString droplet_id, none⟩] := by
  have hout : destroy cfg p sink now droplet_id authorization x_admin_token =
      ⟨.jsonErr 500 ("DigitalOcean API error: " ++ toString code ++ " " ++ text),
        [⟨"DELETE", "/droplets/" ++ toString droplet_id, none⟩],
        [⟨JVal.num droplet_id, JVal.str "", JVal.str "", JVal.str "error",
          JVal.str now, JVal.str ""⟩],
        if atConfigured cfg then
          [⟨JVal.num droplet_id, JVal.str "", JVal.str "", JVal.str "error",
            JVal.str now, JVal.str ""⟩] else []⟩ := by
    simp [destroy, do_api, hauth, htok, hp, log_event_eq]
    exact ⟨rfl, rfl⟩
  rw [hout]
  exact ⟨rfl, ⟨"DigitalOcean API error: ", rfl⟩, rfl, rfl⟩

/-- Claim C5 witness: destroying droplet 3 while the provider answers 404
yields the 500 with "404 not found" in the body and one `error` row. -/
theorem destroy_provider_error_500_witness :
    (destroy cfgS provErr404 sink0 "T" 3 (some "Bearer s") none).resp =
      .jsonErr 500 "DigitalOcean API error: 404 not found" ∧
    (destroy cfgS provErr404 sink0 "T" 3 (some "Bearer s") none).rows =
      [⟨JVal.num 3, JVal.str "", JVal.str "", JVal.str "error",
        JVal.str "T", JVal.str ""⟩] :=
  have h := destroy_provider_error_500 cfgS provErr404 sink0 "T" 3
    (some "Bearer s") none 404 "not found" rfl rfl rfl
  ⟨h.1, h.2.2.1⟩

/-! ## Claim C6 -/

/-- A valid registration payload whose `created` field is present but the
empty string. -/
def bodyC6 : List (String × JVal) :=
  [("droplet_id", JVal.num 9), ("name", JVal.str "web"), ("ip", JVal.str "1.2.3.4"),
   ("created", JVal.str "")]

/-- Claim C6, counterexample: the payload carries `created = ""` (present,
not absent), so the claim demands an Event Row with the same `created` as
the input; but `log_event` applies `created or <wall clock>`, which also
replaces a present-but-falsy value, so the logged row carries the wall
clock `"NOW"` instead of `""`. -/
theorem register_empty_created_now :
    bodyC6.lookup "created" = some (JVal.str "") ∧
    (register cfgS sink0 "NOW" (some bodyC6)).rows =
      [⟨JVal.num 9, JVal.str "web", JVal.str "1.2.3.4", JVal.str "registered",
        JVal.str "NOW", JVal.str ""⟩] ∧
    JVal.str "NOW" ≠ JVal.str "" := by
  refine ⟨rfl, rfl, fun hc => ?_⟩
  injection hc with h1
  exact absurd h1 (by decide)

/-- Claim C6 (amended): for every valid registration payload (`droplet_id`
present and non-null, `name` and `ip` truthy), exactly one Event Row is
produced, with status `registered`, the same droplet_id, name and ip as
the input, and `created` equal to the input's value when that value is
truthy and the current wall-clock time when it is absent, null or falsy
(for example the empty string); no provider call is made and the response
echoes the payload under `ok: true`. -/
theorem register_success_event_row (cfg : Config) (sink : Sink) (now : String)
    (kvs : List (String × JVal))
    (h1 : isNull ((kvs.lookup "droplet_id").getD JVal.null) = false)
    (h2 : truthy ((kvs.lookup "name").getD JVal.null) = true)
    (h3 : truthy ((kvs.lookup "ip").getD JVal.null) = true) :
    (register cfg sink now (some kvs)).resp =
      .jsonOk (JVal.obj [("ok", JVal.bool true), ("received", JVal.obj kvs)]) ∧
    (register cfg sink now (some kvs)).rows =
      [⟨(kvs.lookup "droplet_id").getD JVal.null,
        (kvs.lookup "name").getD JVal.null,
        (kvs.lookup "ip").getD JVal.null,
        JVal.str "registered",
        (if truthy ((kvs.lookup "created").getD JVal.null)
          then (kvs.lookup "created").getD JVal.null else JVal.str now),
        pyOr ((kvs.lookup "assigned_to").getD JVal.null) (JVal.str "")⟩] ∧
    (register cfg sink now (some kvs)).doCalls = [] := by
  have hreg : register cfg sink now (some kvs) =
      ⟨.jsonOk (JVal.obj [("ok", JVal.bool true), ("received", JVal.obj kvs)]), [],
        [⟨(kvs.lookup "droplet_id").getD JVal.null,
          (kvs.lookup "name").getD JVal.null,
          (kvs.lookup "ip").getD JVal.null,
          JVal.str "registered",
          (if truthy ((kvs.lookup "created").getD JVal.null)
            then (kvs.lookup "created").getD JVal.null else JVal.str now),
          pyOr ((kvs.lookup "assigned_to").getD JVal.null) (JVal.str "")⟩],
        if atConfigured cfg then
          [⟨(kvs.lookup "droplet_id").getD JVal.null,
            (kvs.lookup "name").getD JVal.null,
            (kvs.lookup "ip").getD JVal.null,
            JVal.str "registered",
            (if truthy ((kvs.lookup "created").getD JVal.null)
              then (kvs.lookup "created").getD JVal.null else JVal.str now),
            pyOr ((kvs.lookup "assigned_to").getD JVal.null) (JVal.str "")⟩]
        else []⟩ := by
    simp [register, h1, h2, h3, log_event_eq, mkFields, pyOr]
  rw [hreg]
  exact ⟨rfl, rfl, rfl⟩

/-- Claim C6 witness: a valid payload with a truthy `created` keeps it;
(the counterexample covers the falsy case). -/
theorem register_success_event_row_witness :
    (register cfgS sink0 "NOW" (some [("droplet_id", JVal.num 9),
      ("name", JVal.str "web"), ("ip", JVal.str "1.2.3.4"),
      ("created", JVal.str "2024-01-01")])).rows =
      [⟨JVal.num 9, JVal.str "web", JVal.str "1.2.3.4", JVal.str "registered",
        JVal.str "2024-01-01", JVal.str ""⟩] ∧
    (register cfgS sink0 "NOW" (some [("droplet_id", JVal.num 9),
      ("name", JVal.str "web"), ("ip", JVal.str "1.2.3.4"),
      ("created", JVal.str "2024-01-01")])).resp =
      .jsonOk (JVal.obj [("ok", JVal.bool true), ("received", JVal.obj
        [("droplet_id", JVal.num 9), ("name", JVal.str "web"),
         ("ip", JVal.str "1.2.3.4"), ("created", JVal.str "2024-01-01")])]) :=
  have h := register_success_event_row cfgS sink0 "NOW"
    [("droplet_id", JVal.num 9), ("name", JVal.str "web"),
     ("ip", JVal.str "1.2.3.4"), ("created", JVal.str "2024-01-01")] rfl rfl rfl
  ⟨h.2.1, h.1⟩

/-! ## Claim C7 -/

/-- Claim C7, counterexample: the tag `"assigned:aassigned:b"` has the
form `assigned:<label>` with label `"aassigned:b"`, but the code strips
every occurrence of the substring `"assigned:"` (Python `str.replace`),
yielding `"ab"` instead of the label. -/
theorem assigned_tag_replace_all :
    pyStarts "assigned:" "assigned:aassigned:b" = true ∧
    assigned_next [JVal.str "assigned:aassigned:b"] "" = .ok "ab" ∧
    "ab" ≠ "aassigned:b" :=
  ⟨rfl, rfl, by decide⟩

/-- Claim C7 (amended): the extracted assignment is the first tag starting
with `assigned:`, with every occurrence of the substring `assigned:`
removed (this equals the label `<label>` whenever the label itself does not
contain `assigned:`); when no tag matches, the listing's scan yields the
empty string and the dashboard's scan yields `Unassigned`. -/
theorem assigned_tag_extraction :
    (∀ ts : List String, (∀ s ∈ ts, pyStarts "assigned:" s = false) →
      assigned_next (ts.map JVal.str) "" = .ok "" ∧
      assigned_next (ts.map JVal.str) "Unassigned" = .ok "Unassigned") ∧
    (∀ (pre : List String) (t : String) (rest : List JVal) (dflt : String),
      (∀ s ∈ pre, pyStarts "assigned:" s = false) →
      pyStarts "assigned:" t = true →
      assigned_next (pre.map JVal.str ++ JVal.str t :: rest) dflt =
        .ok (py_replace t "assigned:" "")) := by
  constructor
  · intro ts h
    have hf : ts.find? (fun s => pyStarts "assigned:" s) = none :=
      List.find?_eq_none.mpr (fun x hx => by simp [h x hx])
    constructor <;> rw [assigned_next_strings] <;> simp [assigned_total, hf]
  · intro pre t rest dflt
    induction pre with
    | nil => intro hpre ht; simp [assigned_next, ht]
    | cons s ss ih =>
      intro hpre ht
      have hs : pyStarts "assigned:" s = false := hpre s (List.mem_cons_self s ss)
      simp only [List.map_cons, List.cons_append, assigned_next, hs,
        Bool.false_eq_true, if_false]
      exact ih (fun x hx => hpre x (List.mem_cons_of_mem s hx)) ht

/-- Claim C7 witness: no matching tag yields `""` (listing default) and
`"Unassigned"` (dashboard default); `["env:prod", "assigned:alice"]` yields
`"alice"`. -/
theorem assigned_tag_extraction_witness :
    assigned_next [JVal.str "env:prod"] "" = .ok "" ∧
    assigned_next [JVal.str "env:prod"] "Unassigned" = .ok "Unassigned" ∧
    assigned_next [JVal.str "env:prod", JVal.str "assigned:alice"] "" = .ok "alice" := by
  have h := assigned_tag_extraction
  have hno : ∀ s ∈ ["env:prod"], pyStarts "assigned:" s = false := by decide
  exact ⟨(h.1 ["env:prod"] hno).1, (h.1 ["env:prod"] hno).2,
    h.2 ["env:prod"] "assigned:alice" [] "" hno rfl⟩

/-! ## Claim C8 -/

/-- A droplet whose `status` is present but the empty string. -/
def dC8 : JVal := JVal.obj [("id", JVal.num 3), ("name", JVal.str "n"),
  ("status", JVal.str ""), ("created_at", JVal.str "c"), ("tags", JVal.arr [])]

/-- Provider returning exactly the droplet `dC8`. -/
def provC8 : Provider := fun _ _ _ => .ok (JVal.obj [("droplets", JVal.arr [dC8])])

/-- Claim C8, counterexample: the droplet's own status is present and
equal to `""`, so the claim demands the logged row's status be `""`
("unknown" only when the status is absent); but the handler computes
`status or "unknown"`, which also replaces a present-but-falsy status, so
the row carries `"unknown"`. -/
theorem list_empty_status_unknown :
    jfield dC8 "status" JVal.null = JVal.str "" ∧
    (list_droplets cfgS provC8 sink0 "T").rows =
      [⟨JVal.num 3, JVal.str "n", JVal.str "", JVal.str "unknown",
        JVal.str "c", JVal.str ""⟩] ∧
    JVal.str "unknown" ≠ JVal.str "" := by
  refine ⟨rfl, rfl, fun hc => ?_⟩
  injection hc with h1
  exact absurd h1 (by decide)

/-- Claim C8 (amended): for every successful list request over droplets
the loop can process (objects whose tags are an array of strings), the
handler emits exactly one Event Row per droplet, in provider order, with
the row's status equal to the droplet's own status when that status is
truthy and `"unknown"` when it is absent, null or falsy (e.g. the empty
string), and returns the full normalized list together with a count equal
to its length. -/
theorem list_rows_order_status (cfg : Config) (p : Provider) (sink : Sink)
    (now : String) (data : JVal) (ds : List JVal)
    (htok : optTruthy cfg.DO_TOKEN = true)
    (hp : p "GET" "/droplets" none = .ok data)
    (hd : pyGet data "droplets" (JVal.arr []) = .ok (JVal.arr ds))
    (hwf : ∀ d ∈ ds, wf_droplet d = true) :
    (list_droplets cfg p sink now).rows = ds.map (ev_total now) ∧
    (list_droplets cfg p sink now).rows.length = ds.length ∧
    (∀ d ∈ ds, (ev_total now d).status =
      pyOr (jfield d "status" JVal.null) (JVal.str "unknown")) ∧
    (list_droplets cfg p sink now).resp =
      .jsonOk (JVal.obj [("count", JVal.num (ds.map row_total).length),
        ("droplets", JVal.arr (ds.map row_total))]) := by
  have hout : list_droplets cfg p sink now =
      ⟨.jsonOk (JVal.obj [("count", JVal.num (ds.map row_total).length),
          ("droplets", JVal.arr (ds.map row_total))]),
        [⟨"GET", "/droplets", none⟩], ds.map (ev_total now),
        if atConfigured cfg then ds.map (ev_total now) else []⟩ := by
    simp [list_droplets, do_api, htok, hp, hd, pyIter,
      process_list_wf cfg sink now ds hwf]
  rw [hout]
  exact ⟨rfl, by simp, fun d hd2 => rfl, rfl⟩

/-- First witness droplet: active, tagged `assigned:alice`, no networks. -/
def dW1 : JVal := JVal.obj [("id", JVal.num 1), ("name", JVal.str "a"),
  ("status", JVal.str "active"), ("created_at", JVal.str "t1"),
  ("tags", JVal.arr [JVal.str "assigned:alice"])]

/-- Second witness droplet: status absent, no tags. -/
def dW2 : JVal := JVal.obj [("id", JVal.num 2), ("name", JVal.str "b"),
  ("created_at", JVal.str "t2"), ("tags", JVal.arr [])]

/-- Provider returning the two witness droplets in order. -/
def provW : Provider := fun _ _ _ => .ok (JVal.obj [("droplets", JVal.arr [dW1, dW2])])

/-- Claim C8 witness: two droplets produce two rows in provider order, the
present truthy status is kept, the absent one becomes `"unknown"`, and the
count is 2. -/
theorem list_rows_order_status_witness :
    (list_droplets cfgS provW sink0 "T").rows =
      [⟨JVal.num 1, JVal.str "a", JVal.str "", JVal.str "active",
        JVal.str "t1", JVal.str "alice"⟩,
       ⟨JVal.num 2, JVal.str "b", JVal.str "", JVal.str "unknown",
        JVal.str "t2", JVal.str ""⟩] ∧
    (list_droplets cfgS provW sink0 "T").resp =
      .jsonOk (JVal.obj [("count", JVal.num 2), ("droplets", JVal.arr
        [JVal.obj [("droplet_id", JVal.num 1), ("name", JVal.str "a"),
          ("ip", JVal.null), ("status", JVal.str "active"),
          ("created", JVal.str "t1"), ("assigned_to", JVal.str "alice")],
         JVal.obj [("droplet_id", JVal.num 2), ("name", JVal.str "b"),
          ("ip", JVal.null), ("status", JVal.null),
          ("created", JVal.str "t2"), ("assigned_to", JVal.str "")]])]) :=
  have h := list_rows_order_status cfgS provW sink0 "T"
    (JVal.obj [("droplets", JVal.arr [dW1, dW2])]) [dW1, dW2] rfl rfl rfl
    (by decide)
  ⟨h.1, h.2.2.2⟩

/-! ## Claim C9 -/

/-- `list_err` does not depend on the sink outcome. -/
theorem list_err_sink_eq (cfg : Config) (s1 s2 : Sink) (now : String)
    (e : PyErr) (calls : List DoCall) (r p : List EventRow) :
    list_err cfg s1 now e calls r p = list_err cfg s2 now e calls r p := by
  unfold list_err
  rw [log_event_eq, log_event_eq]

/-- Claim C9: logging never fails observably.  If the sink triple is
unconfigured, no append call is attempted; the result of `log_event` (and
hence of every handler) is the same whatever outcome the sink's append
calls have — in particular the HTTP status and body of every endpoint's
response are unchanged when the logging store fails.  (The dashboard
endpoints make no `log_event` calls at all, so they have no sink
parameter.) -/
theorem logging_never_observable :
    (∀ (cfg : Config) (sink : Sink) (now : String) (a b c d e f : JVal),
      atConfigured cfg = false →
      (log_event cfg sink now a b c d e f).2 = []) ∧
    (∀ (cfg : Config) (s1 s2 : Sink) (now : String) (a b c d e f : JVal),
      log_event cfg s1 now a b c d e f = log_event cfg s2 now a b c d e f) ∧
    (∀ (cfg : Config) (s1 s2 : Sink) (now : String)
        (body : Option (List (String × JVal))),
      register cfg s1 now body = register cfg s2 now body) ∧
    (∀ (cfg : Config) (p : Provider) (s1 s2 : Sink) (now : String),
      list_droplets cfg p s1 now = list_droplets cfg p s2 now) ∧
    (∀ (cfg : Config) (p : Provider) (s1 s2 : Sink) (now : String)
        (droplet_id : Int) (action : String) (auth xat : Option String),
      power_action cfg p s1 now droplet_id action auth xat =
        power_action cfg p s2 now droplet_id action auth xat) ∧
    (∀ (cfg : Config) (p : Provider) (s1 s2 : Sink) (now : String)
        (droplet_id : Int) (auth xat : Option String),
      destroy cfg p s1 now droplet_id auth xat =
        destroy cfg p s2 now droplet_id auth xat) := by
  refine ⟨?_, ?_, ?_, ?_, ?_, ?_⟩
  · intro cfg sink now a b c d e f h
    rw [log_event_eq]
    simp [h]
  · intro cfg s1 s2 now a b c d e f
    rw [log_event_eq, log_event_eq]
  · intro cfg s1 s2 now body
    cases body with
    | none => rfl
    | some kvs => simp only [register, log_event_eq]
  · intro cfg p s1 s2 now
    unfold list_droplets
    rcases hda : do_api cfg p "GET" "/droplets" none with ⟨res, calls⟩
    cases res with
    | error e =>
      dsimp only
      exact list_err_sink_eq cfg s1 s2 now e calls [] []
    | ok data =>
      dsimp only
      cases hpg : pyGet data "droplets" (JVal.arr []) with
      | error e =>
        dsimp only
        exact list_err_sink_eq cfg s1 s2 now e calls [] []
      | ok v =>
        dsimp only
        cases hpi : pyIter v with
        | error e =>
          dsimp only
          exact list_err_sink_eq cfg s1 s2 now e calls [] []
        | ok ds =>
          dsimp only
          rw [process_list_sink_eq cfg s1 s2 now ds]
          rcases hpl : process_list cfg s2 now ds with ⟨r, rows, posts⟩
          cases r with
          | ok results => rfl
          | error e =>
            dsimp only
            exact list_err_sink_eq cfg s1 s2 now e calls rows posts
  · intro cfg p s1 s2 now droplet_id action auth xat
    simp only [power_action, log_event_eq]
  · intro cfg p s1 s2 now droplet_id auth xat
    simp only [destroy, log_event_eq]

/-- Claim C9 witness: with the sink triple unconfigured nothing is posted;
with it configured, a failing sink leaves every response identical to a
succeeding sink's. -/
theorem logging_never_observable_witness :
    (log_event cfgNoSink sink0 "T" JVal.null JVal.null JVal.null
      (JVal.str "x") JVal.null JVal.null).2 = [] ∧
    register cfgS sink0 "T" (some bodyC6) = register cfgS sinkDown "T" (some bodyC6) ∧
    list_droplets cfgS provC8 sink0 "T" = list_droplets cfgS provC8 sinkDown "T" ∧
    power_action cfgS provOk sink0 "T" 7 "reboot" (some "Bearer s") none =
      power_action cfgS provOk sinkDown "T" 7 "reboot" (some "Bearer s") none ∧
    destroy cfgS provErr404 sink0 "T" 3 (some "Bearer s") none =
      destroy cfgS provErr404 sinkDown "T" 3 (some "Bearer s") none :=
  have h := logging_never_observable
  ⟨h.1 cfgNoSink sink0 "T" JVal.null JVal.null JVal.null (JVal.str "x")
      JVal.null JVal.null rfl,
   h.2.2.1 cfgS sink0 sinkDown "T" (some bodyC6),
   h.2.2.2.1 cfgS provC8 sink0 sinkDown "T",
   h.2.2.2.2.1 cfgS provOk sink0 sinkDown "T" 7 "reboot" (some "Bearer s") none,
   h.2.2.2.2.2 cfgS provErr404 sink0 sinkDown "T" 3 (some "Bearer s") none⟩

/-! ## Claim C10 -/

/-- Claim C10: for every register request whose body is not parseable as
JSON, the handler returns 400 with the message "Invalid JSON body", makes
no provider call and writes no log row. -/
theorem register_invalid_json_400 (cfg : Config) (sink : Sink) (now : String) :
    register cfg sink now none = ⟨.jsonErr 400 "Invalid JSON body", [], [], []⟩ := rfl

end Droplet
